import Mathlib

/-!
Verification of the chat-service session/authentication subsystem.

This file is a shallow embedding, in Lean 4, of the parts of the Go
repository that the specification talks about:

* `internal/service/service_repo.go` — the HS256 JWT service
  (`GenerateToken`, `ValidateToken`);
* `internal/service/hash.go` — the bcrypt credential hasher
  (`HashPassword`, `CheckPasswordHash`);
* `internal/entity/user.go`, `internal/entity/session.go` — entities and
  their validators;
* `internal/usecase/session/session_usecase_impl.go` — the session
  manager (`ValidateSession`, `DeleteSession`);
* `internal/usecase/user/...` (userUsecase) — `Register`, `Login`,
  `GetProfile`, `DeleteUser`;
* `internal/adapter/session.go`, `internal/adapter/user.go` — the
  Postgres repositories, including the transactional cascade delete, over
  an explicit relational state;
* the SQL migrations, which fix the schema (unique email/username, unique
  session token, `ON DELETE CASCADE`).

Cryptographic primitives (HMAC-SHA256 signing inside the JWT library,
the bcrypt key-derivation function) are modelled symbolically, in the
standard Dolev–Yao style: a signature or digest is an injective function
of the key/salt and the signed data (`Nat.pair` of the codes), which
expresses exactly the collision-freeness and unforgeability idealization
that the specification's claims rely on.  Wall-clock time is an explicit
`Nat` parameter (`now`), database state is explicit and passed through,
and every fallible Go call returns `Except`.
-/

/-! ## Time and identifiers

Go `time.Time` values are modelled as `Nat` (seconds); `t.Before(u)` is
`t < u`.  `uuid.UUID` is modelled as `Nat`, with `uuid.Nil = 0`.
`time.Now().Add(24 * time.Hour)` becomes `now + 86400`. -/

/-- Number of seconds in the 24-hour session/token lifetime used by both
`GenerateToken` and `CreateSession`. -/
def dayInSeconds : Nat := 86400

/-! ## JWT service (`internal/service/service_repo.go`)

`Claims` mirrors the Go `Claims` struct: the custom `user_id` claim plus
the registered claims the code sets (`exp`, `iat`, `nbf`). -/

/-- Registered and custom claims carried by a token, as set by
`jwtService.GenerateToken`. -/
structure Claims where
  userID : Nat
  exp : Nat
  iat : Nat
  nbf : Nat
deriving DecidableEq, Repr

/-- Injective numeric code of a claims record, used as the signed payload. -/
def Claims.code (c : Claims) : Nat :=
  Nat.pair c.userID (Nat.pair c.exp (Nat.pair c.iat c.nbf))

/-- Symbolic HMAC-SHA256: the signature is determined by the secret and the
signed claims, and distinct (secret, claims) pairs give distinct signatures
(the idealized collision-free MAC).  Secrets are modelled as `Nat` codes of
the Go secret-key strings. -/
def hs256 (secret : Nat) (c : Claims) : Nat :=
  Nat.pair secret c.code

/-- Compact JWS serialization of signed claims: the claims segment together
with the signature segment. -/
structure SignedToken where
  claims : Claims
  sig : Nat
deriving DecidableEq, Repr

/-- A Go token string presented to the JWT service: either a structurally
well-formed compact serialization or a malformed string that does not parse
as one. -/
inductive TokenStr where
  | compact (t : SignedToken)
  | malformed (s : String)
deriving DecidableEq, Repr

/-- Predicate for the empty Go string viewed as a token: a compact JWS
serialization is never empty. -/
def TokenStr.isEmptyTok : TokenStr → Bool
  | .compact _ => false
  | .malformed s => s.isEmpty

/-- GenerateToken from `service_repo.go`: builds claims with
`exp = now + 24h`, `iat = now`, `nbf = now` and signs them with the
process secret.  Signing with HMAC never fails on a valid key, so the
function is total. -/
def GenerateToken (secret : Nat) (now : Nat) (userID : Nat) : TokenStr :=
  let c : Claims := { userID := userID, exp := now + dayInSeconds, iat := now, nbf := now }
  .compact { claims := c, sig := hs256 secret c }

/-- ValidateToken from `service_repo.go`: `jwt.ParseWithClaims` parses the
string, verifies the HMAC signature against the service secret, then
validates the time claims (`exp` strictly in the past fails, `nbf` strictly
in the future fails); on success the Go code returns `claims.UserID`. -/
def ValidateToken (secret : Nat) (now : Nat) : TokenStr → Except String Nat
  | .malformed _ => .error "token contains an invalid number of segments"
  | .compact t =>
    if t.sig = hs256 secret t.claims then
      if t.claims.exp < now then .error "token has invalid claims: token is expired"
      else if now < t.claims.nbf then .error "token has invalid claims: token is not valid yet"
      else .ok t.claims.userID
    else .error "token signature is invalid"

/-- Test helper: whether an `Except` result is a success. -/
def exceptOk {ε α : Type} : Except ε α → Bool
  | .ok _ => true
  | .error _ => false

/-! ## Credential hasher (`internal/service/hash.go`)

The `users.password` column and the `User.Password` field hold Go strings
that are either ordinary strings (raw input, or anything that does not
parse as a bcrypt hash) or bcrypt outputs in modular-crypt format.
`bcryptMCF salt pw` stands for the 60-byte string
`$2a$10$<salt><digest>` in which `digest` is the idealized collision-free
bcrypt KDF applied to `salt` and `pw`; keeping the arguments as
constructor data is the symbolic rendering of that idealization
(constructor injectivity = no digest collisions, constructor disjointness
= a bcrypt output never coincides with a given raw string). -/

/-- A Go string in the credential domain: a raw string or a bcrypt
modular-crypt-format hash. -/
inductive PassStr where
  | plain (s : String)
  | bcryptMCF (salt : Nat) (pw : String)
deriving DecidableEq, Repr

/-- Byte length of the Go string (`len`); a bcrypt `DefaultCost` hash is
exactly 60 bytes. -/
def PassStr.byteLen : PassStr → Nat
  | .plain s => s.utf8ByteSize
  | .bcryptMCF _ _ => 60

/-- Whether the Go string equals `""`; a bcrypt hash never does. -/
def PassStr.isEmptyStr : PassStr → Bool
  | .plain s => s.isEmpty
  | .bcryptMCF _ _ => false

/-- HashPassword from `hash.go`: `bcrypt.GenerateFromPassword` with
`DefaultCost` on the raw password.  The salt is the fresh 128-bit random
value bcrypt draws on each call, made an explicit parameter here.  The Go
call fails only on an out-of-range cost, which `DefaultCost` never is, so
the function is total. -/
def HashPassword (salt : Nat) (password : String) : PassStr :=
  .bcryptMCF salt password

/-- CheckPasswordHash from `hash.go`: `bcrypt.CompareHashAndPassword`
parses the hash, re-derives the digest from the embedded salt and the
supplied password and compares in constant time; any parse failure or
mismatch makes the Go wrapper return `false`, never an error.  Under the
symbolic KDF, digest equality at the same salt is equality of the hashed
passwords. -/
def CheckPasswordHash (password : String) (hash : PassStr) : Bool :=
  match hash with
  | .plain _ => false
  | .bcryptMCF _ pw => pw == password

/-! ## Entities (`internal/entity/user.go`, `session.go`, `message.go`) -/

/-- User entity; `password` holds the bcrypt hash in stored records and is
cleared to the empty string before a usecase returns a user. -/
structure User where
  id : Nat
  username : String
  email : String
  password : PassStr
  createdAt : Nat
  updatedAt : Nat
deriving DecidableEq, Repr

/-- Session entity from `entity/session.go`. -/
structure Session where
  id : Nat
  userID : Nat
  token : TokenStr
  expiresAt : Nat
  createdAt : Nat
deriving DecidableEq, Repr

/-- Message entity from `entity/message.go` (the `sender_id` column links a
message to its author). -/
structure Message where
  id : Nat
  content : String
  senderID : Nat
  sentAt : Nat
deriving DecidableEq, Repr

/-- One Go error domain: the informal tagged union of `BusinessError`
(usecase layer), `ValidationError` and `NotFoundError` (entity and adapter
layers) and wrapped driver errors, distinguished in Go by dynamic type and
message. -/
inductive AppError where
  | businessErr (msg : String)
  | validationErr (msg : String)
  | notFoundErr (msg : String)
  | dbErr (msg : String)
deriving DecidableEq, Repr

/-- Validate from `entity/user.go` (lines 18-35), exactly in source order.
The password checks run on whatever the `Password` field holds at call
time. -/
def User.validate (u : User) : Except AppError Unit :=
  if u.username = "" then .error (.validationErr "username is required")
  else if u.username.utf8ByteSize < 3 then .error (.validationErr "username must be at least 3 characters")
  else if u.email = "" then .error (.validationErr "email is required")
  else if u.password.isEmptyStr then .error (.validationErr "password is required")
  else if u.password.byteLen < 6 then .error (.validationErr "password must be at least 6 characters")
  else .ok ()

/-! ## Session stores

The session manager is written against the `SessionRepository` interface.
Two implementations matter here: the Store collaborator as the
specification defines it (a plain durable token-to-session mapping whose
`getByToken` returns the stored record or not-found, the contract the unit
tests mock), and the Postgres adapter of `internal/adapter/session.go`,
which additionally rejects empty tokens and filters out expired rows at
read time.  The sessions table state is the list of its rows. -/

/-- Interface `usecase.SessionRepository` as consumed by the session
manager: a lookup (taking the current time, which the Postgres
implementation consults) and a delete-by-token returning the new table
state together with the Go error. -/
structure SessionRepoModel where
  getByToken : Nat → List Session → TokenStr → Except AppError Session
  deleteByToken : List Session → TokenStr → List Session × Except AppError Unit

/-- Store collaborator per the specification (and the test mocks): lookup
returns the stored session whatever its expiry; absent token is not-found;
delete removes the row, signalling not-found when nothing matched. -/
def plainSessionStore : SessionRepoModel where
  getByToken _ db token :=
    match db.find? (fun s => s.token == token) with
    | some s => .ok s
    | none => .error (.notFoundErr "session not found")
  deleteByToken db token :=
    if (db.find? (fun s => s.token == token)).isSome then
      (db.filter (fun s => !(s.token == token)), .ok ())
    else
      (db, .error (.notFoundErr "session not found"))

/-- GetByToken from `adapter/session.go` (lines 56-94): empty token is a
validation error; no row is not-found; a row whose `expires_at` is before
now is reported as the validation error `session expired` and never
returned; otherwise the row is returned.  The token column is unique, so
`LIMIT 1` is the single matching row. -/
def pgSessionGetByToken (now : Nat) (db : List Session) (token : TokenStr) : Except AppError Session :=
  if token.isEmptyTok then .error (.validationErr "token is required")
  else
    match db.find? (fun s => s.token == token) with
    | none => .error (.notFoundErr "session not found")
    | some s =>
      if s.expiresAt < now then .error (.validationErr "session expired")
      else .ok s

/-- Latest-created session of a user: `ORDER BY created_at DESC LIMIT 1`. -/
def latestSessionOf (db : List Session) (userID : Nat) : Option Session :=
  (db.filter (fun s => s.userID == userID)).foldl
    (fun acc s =>
      match acc with
      | none => some s
      | some t => if t.createdAt < s.createdAt then some s else some t)
    none

/-- GetByUserID from `adapter/session.go` (lines 96-135): nil user id is a
validation error; otherwise the newest session of the user, with the same
read-time expiry rejection as `pgSessionGetByToken`. -/
def pgSessionGetByUserID (now : Nat) (db : List Session) (userID : Nat) : Except AppError Session :=
  if userID = 0 then .error (.validationErr "invalid user ID")
  else
    match latestSessionOf db userID with
    | none => .error (.notFoundErr "session not found")
    | some s =>
      if s.expiresAt < now then .error (.validationErr "session expired")
      else .ok s

/-- DeleteByToken from `adapter/session.go` (lines 167-195): empty token is
a validation error; `DELETE ... RETURNING id` scanning no row yields the
not-found error; otherwise the matching rows are removed. -/
def pgSessionDeleteByToken (db : List Session) (token : TokenStr) : List Session × Except AppError Unit :=
  if token.isEmptyTok then (db, .error (.validationErr "token is required"))
  else if (db.find? (fun s => s.token == token)).isSome then
    (db.filter (fun s => !(s.token == token)), .ok ())
  else
    (db, .error (.notFoundErr "session not found"))

/-- The Postgres adapter packaged as a `SessionRepoModel`. -/
def pgSessionRepo : SessionRepoModel where
  getByToken := pgSessionGetByToken
  deleteByToken := pgSessionDeleteByToken

/-! ## Session manager (`internal/usecase/session/session_usecase_impl.go`) -/

/-- ValidateSession (lines 62-96): store lookup (any lookup error becomes
the `invalid session` business error), then the manager expiry check with
read-time eviction (the delete error is discarded by the Go code), then
JWT verification, then the subject comparison; on success the stored
session is returned.  The second component is the session-table state
after the call. -/
def ValidateSession (repo : SessionRepoModel) (secret now : Nat)
    (db : List Session) (token : TokenStr) : Except AppError Session × List Session :=
  match repo.getByToken now db token with
  | .error _ => (.error (.businessErr "invalid session"), db)
  | .ok session =>
    if session.expiresAt < now then
      let del := repo.deleteByToken db token
      (.error (.businessErr "session expired"), del.1)
    else
      match ValidateToken secret now token with
      | .error _ => (.error (.businessErr "invalid token"), db)
      | .ok userID =>
        if userID = session.userID then (.ok session, db)
        else (.error (.businessErr "token mismatch"), db)

/-- DeleteSession (lines 98-109): calls the repository delete and returns
its error unchanged when there is one, success otherwise. -/
def DeleteSession (repo : SessionRepoModel) (db : List Session) (token : TokenStr) :
    Except AppError Unit × List Session :=
  let del := repo.deleteByToken db token
  match del.2 with
  | .error e => (.error e, del.1)
  | .ok _ => (.ok (), del.1)

/-- Logout from `internal/handler/user.go` (lines 211-233): with a bearer
token extracted from the header, the handler calls `DeleteSession`, logs
and discards any error, and answers HTTP 200 in every case; an empty token
skips the delete. -/
def logoutHandler (repo : SessionRepoModel) (db : List Session) (token : TokenStr) :
    Nat × List Session :=
  if token.isEmptyTok then (200, db)
  else
    let del := DeleteSession repo db token
    (200, del.2)

/-! ## User repository (`internal/adapter/user.go`) and the full database

`ChatDB` is the relational state fixed by the migrations: a users table
with unique id, username and email, plus the sessions and messages tables
whose `user_id` columns reference `users(id)`. -/

/-- State of the three tables created by the migrations. -/
structure ChatDB where
  users : List User
  sessions : List Session
  messages : List Message
deriving DecidableEq, Repr

/-- GetByID from `adapter/user.go` (lines 55-87). -/
def pgUserGetByID (db : List User) (id : Nat) : Except AppError User :=
  if id = 0 then .error (.validationErr "invalid user ID")
  else
    match db.find? (fun u => u.id == id) with
    | none => .error (.notFoundErr "user not found")
    | some u => .ok u

/-- GetByEmail from `adapter/user.go` (lines 89-121). -/
def pgUserGetByEmail (db : List User) (email : String) : Except AppError User :=
  if email = "" then .error (.validationErr "email is required")
  else
    match db.find? (fun u => u.email == email) with
    | none => .error (.notFoundErr "user not found")
    | some u => .ok u

/-- validateUser from `adapter/user.go` (lines 236-262); the same checks as
the entity validator, repeated at the adapter, again on the stored
(post-hash) password field. -/
def pgValidateUser (u : User) : Except AppError Unit :=
  if u.username = "" then .error (.validationErr "username is required")
  else if u.username.utf8ByteSize < 3 then .error (.validationErr "username must be at least 3 characters")
  else if u.email = "" then .error (.validationErr "email is required")
  else if u.password.isEmptyStr then .error (.validationErr "password is required")
  else if u.password.byteLen < 6 then .error (.validationErr "password must be at least 6 characters")
  else .ok ()

/-- Create from `adapter/user.go` (lines 27-53): adapter validation, then
the INSERT, which the schema's primary-key and unique constraints on id,
username and email can make fail; a driver error is wrapped and returned,
otherwise the row is appended. -/
def pgUserCreate (db : List User) (u : User) : Except AppError (List User) :=
  match pgValidateUser u with
  | .error e => .error e
  | .ok _ =>
    if (db.find? (fun v => v.id == u.id || v.username == u.username || v.email == u.email)).isSome then
      .error (.dbErr "failed to insert user")
    else
      .ok (db ++ [u])

/-- Injected failure point inside the delete transaction, standing for a
driver error at the corresponding statement. -/
inductive TxFault where
  | noFault
  | failDeleteMessages
  | failDeleteSessions
  | failDeleteUserRow
  | failCommit
deriving DecidableEq, Repr

/-- Delete from `adapter/user.go` (lines 159-233): one transaction that
deletes the user's messages, then the user's sessions, then the user row
(`RETURNING id`, so a missing user surfaces as the not-found error), then
commits.  Any error on the way triggers the deferred rollback, so every
error path leaves the database exactly as it was; only the commit makes
all three deletions visible at once. -/
def pgUserDelete (fault : TxFault) (db : ChatDB) (id : Nat) : Except AppError Unit × ChatDB :=
  if id = 0 then (.error (.validationErr "invalid user ID"), db)
  else if fault = .failDeleteMessages then (.error (.dbErr "failed to delete user messages"), db)
  else if fault = .failDeleteSessions then (.error (.dbErr "failed to delete user sessions"), db)
  else if fault = .failDeleteUserRow then (.error (.dbErr "failed to delete user"), db)
  else if (db.users.find? (fun u => u.id == id)).isNone then (.error (.notFoundErr "user not found"), db)
  else if fault = .failCommit then (.error (.dbErr "failed to commit transaction"), db)
  else
    (.ok (),
      { users := db.users.filter (fun u => !(u.id == id))
        sessions := db.sessions.filter (fun s => !(s.userID == id))
        messages := db.messages.filter (fun m => !(m.senderID == id)) })

/-! ## User account manager (userUsecase, `internal/usecase/user`) -/

/-- Register (lines 38-86 of the usecase): the email pre-check whose error
is discarded, bcrypt hashing, construction of the record with the hash in
the password field, entity validation of that record, persistence, and
clearing of the returned copy's password.  `salt` is the bcrypt salt drawn
during the call, `freshID` the `uuid.New()` value, `now` the wall clock.
The second component is the users-table state after the call. -/
def Register (salt freshID now : Nat) (db : List User)
    (username email password : String) : Except AppError User × List User :=
  match pgUserGetByEmail db email with
  | .ok _ => (.error (.businessErr "user with this email already exists"), db)
  | .error _ =>
    let hashed := HashPassword salt password
    let user : User :=
      { id := freshID, username := username, email := email, password := hashed,
        createdAt := now, updatedAt := now }
    match user.validate with
    | .error e => (.error e, db)
    | .ok _ =>
      match pgUserCreate db user with
      | .error e => (.error e, db)
      | .ok db2 => (.ok { user with password := .plain "" }, db2)

/-- Login (lines 88-108): lookup by email, any lookup failure becoming the
`invalid credentials` business error; then the bcrypt check, a mismatch
giving the same `invalid credentials` business error; on success the user
is returned with the password field cleared. -/
def Login (db : List User) (email password : String) : Except AppError User :=
  match pgUserGetByEmail db email with
  | .error _ => .error (.businessErr "invalid credentials")
  | .ok user =>
    if CheckPasswordHash password user.password then .ok { user with password := .plain "" }
    else .error (.businessErr "invalid credentials")

/-- GetProfile (lines 110-122): lookup by id, propagating the repository
error, and clearing the password field of the returned user. -/
def GetProfile (db : List User) (userID : Nat) : Except AppError User :=
  match pgUserGetByID db userID with
  | .error e => .error e
  | .ok user => .ok { user with password := .plain "" }

/-- DeleteUser (lines 143-161): a session lookup whose result is only
logged, then the repository delete, whose outcome is returned unchanged. -/
def DeleteUser (fault : TxFault) (now : Nat) (db : ChatDB) (userID : Nat) :
    Except AppError Unit × ChatDB :=
  let _sessionLookup := pgSessionGetByUserID now db.sessions userID
  pgUserDelete fault db userID

/-! ## Shared lemmas -/

/-- Searching for `p` after keeping only the elements refuting `p` finds
nothing; this is what makes a delete-by-key observable as not-found on the
next lookup. -/
theorem find?_filter_not_self {α : Type} (p : α → Bool) (l : List α) :
    (l.filter (fun a => !(p a))).find? p = none := by
  rw [List.find?_eq_none]
  intro x hx
  have h := (List.mem_filter.mp hx).2
  simp only [Bool.not_eq_true'] at h
  simp [h]

/-- Session lookup by token through the Postgres adapter only succeeds on
rows that have not expired. -/
theorem pgSessionGetByToken_ok_not_expired {now : Nat} {db : List Session}
    {token : TokenStr} {sess : Session}
    (h : pgSessionGetByToken now db token = .ok sess) : ¬ sess.expiresAt < now := by
  unfold pgSessionGetByToken at h
  by_cases he : token.isEmptyTok <;> simp [he] at h
  rcases hf : db.find? (fun s => s.token == token) with _ | s <;> simp [hf] at h
  by_cases hx : s.expiresAt < now <;> simp [hx] at h
  exact h ▸ hx

/-- Session lookup by user id through the Postgres adapter only succeeds
on rows that have not expired. -/
theorem pgSessionGetByUserID_ok_not_expired {now : Nat} {db : List Session}
    {userID : Nat} {sess : Session}
    (h : pgSessionGetByUserID now db userID = .ok sess) : ¬ sess.expiresAt < now := by
  unfold pgSessionGetByUserID at h
  by_cases hz : userID = 0 <;> simp [hz] at h
  rcases hf : latestSessionOf db userID with _ | s <;> simp [hf] at h
  by_cases hx : s.expiresAt < now <;> simp [hx] at h
  exact h ▸ hx

/-! ## Theorems -/

/-- C2: verifying a token freshly issued for a subject, with the same
signing secret, succeeds and returns that subject. -/
theorem jwt_roundtrip (secret now uid : Nat) :
    ValidateToken secret now (GenerateToken secret now uid) = .ok uid := by
  simp [ValidateToken, GenerateToken, dayInSeconds]

/-- C3: token verification returns an error, never a subject, for a token
issued under a different secret, for a well-formed token whose `exp` has
passed or whose `nbf` is in the future, for a token whose signature
segment does not match its claims (structural alteration), and for a
malformed token. -/
theorem jwt_rejects (secret now : Nat) :
    (∀ secret2 now2 uid, secret2 ≠ secret →
        ∀ u, ValidateToken secret now (GenerateToken secret2 now2 uid) ≠ .ok u)
  ∧ (∀ t : SignedToken, t.claims.exp < now →
        ∀ u, ValidateToken secret now (.compact t) ≠ .ok u)
  ∧ (∀ t : SignedToken, now < t.claims.nbf →
        ∀ u, ValidateToken secret now (.compact t) ≠ .ok u)
  ∧ (∀ t : SignedToken, t.sig ≠ hs256 secret t.claims →
        ∀ u, ValidateToken secret now (.compact t) ≠ .ok u)
  ∧ (∀ s : String, ∀ u, ValidateToken secret now (.malformed s) ≠ .ok u) := by
  refine ⟨?_, ?_, ?_, ?_, ?_⟩
  · intro secret2 now2 uid hne u
    have hsig : hs256 secret2 { userID := uid, exp := now2 + dayInSeconds, iat := now2, nbf := now2 }
        ≠ hs256 secret { userID := uid, exp := now2 + dayInSeconds, iat := now2, nbf := now2 } := by
      intro h
      exact hne (Nat.pair_eq_pair.mp h).1
    simp [ValidateToken, GenerateToken, hsig]
  · intro t hexp u
    by_cases hsig : t.sig = hs256 secret t.claims <;> simp [ValidateToken, hsig, hexp]
  · intro t hnbf u
    by_cases hsig : t.sig = hs256 secret t.claims <;>
      by_cases hx : t.claims.exp < now <;> simp [ValidateToken, hsig, hx, hnbf]
  · intro t hsig u
    simp [ValidateToken, hsig]
  · intro s u
    simp [ValidateToken]

/-- C3 witness: concrete rejections obtained from `jwt_rejects`. -/
theorem jwt_rejects_witness :
    (ValidateToken 5 1000 (GenerateToken 6 1000 9) ≠ .ok 9)
  ∧ (ValidateToken 5 1000 (.compact { claims := { userID := 9, exp := 900, iat := 0, nbf := 0 }, sig := hs256 5 { userID := 9, exp := 900, iat := 0, nbf := 0 } }) ≠ .ok 9)
  ∧ (ValidateToken 5 1000 (.compact { claims := { userID := 9, exp := 90000, iat := 2000, nbf := 2000 }, sig := hs256 5 { userID := 9, exp := 90000, iat := 2000, nbf := 2000 } }) ≠ .ok 9)
  ∧ (ValidateToken 5 1000 (.compact { claims := { userID := 9, exp := 90000, iat := 0, nbf := 0 }, sig := hs256 5 { userID := 9, exp := 90000, iat := 0, nbf := 0 } + 1 }) ≠ .ok 9) :=
  ⟨(jwt_rejects 5 1000).1 6 1000 9 (by decide) 9,
   (jwt_rejects 5 1000).2.1 _ (by decide) 9,
   (jwt_rejects 5 1000).2.2.1 _ (by decide) 9,
   (jwt_rejects 5 1000).2.2.2.1 _ (by simp) 9⟩

/-- C9: bcrypt round-trip and rejection properties: verifying a password
against its own hash succeeds; any other password fails; a malformed hash
makes verification return the boolean false, never an error; a hash never
equals the hashed password; and two calls drawing distinct salts return
distinct hashes (self-salting). -/
theorem bcrypt_props :
    (∀ salt s, CheckPasswordHash s (HashPassword salt s) = true)
  ∧ (∀ salt s s2, s2 ≠ s → CheckPasswordHash s2 (HashPassword salt s) = false)
  ∧ (∀ pw m, CheckPasswordHash pw (.plain m) = false)
  ∧ (∀ salt s, HashPassword salt s ≠ .plain s)
  ∧ (∀ salt1 salt2 s, salt1 ≠ salt2 → HashPassword salt1 s ≠ HashPassword salt2 s) := by
  refine ⟨?_, ?_, ?_, ?_, ?_⟩
  · intro salt s
    simp [CheckPasswordHash, HashPassword]
  · intro salt s s2 hne
    simp [CheckPasswordHash, HashPassword]
    exact fun h => (hne h.symm).elim
  · intro pw m
    simp [CheckPasswordHash]
  · intro salt s
    simp [HashPassword]
  · intro salt1 salt2 s hne
    simp [HashPassword, hne]

/-- C9 witness: concrete instances of the bcrypt properties. -/
theorem bcrypt_props_witness :
    CheckPasswordHash "secret123" (HashPassword 3 "secret123") = true
  ∧ CheckPasswordHash "wrong" (HashPassword 3 "secret123") = false
  ∧ CheckPasswordHash "" (PassStr.plain "") = false
  ∧ HashPassword 3 "secret123" ≠ .plain "secret123"
  ∧ HashPassword 1 "secret123" ≠ HashPassword 2 "secret123" :=
  ⟨bcrypt_props.1 3 "secret123",
   bcrypt_props.2.1 3 "secret123" "wrong" (by decide),
   bcrypt_props.2.2.1 "" "",
   bcrypt_props.2.2.2.1 3 "secret123",
   bcrypt_props.2.2.2.2 1 2 "secret123" (by decide)⟩

/-- C1: over the specified Store collaborator, `ValidateSession` performs
its checks in source order with one typed failure each: absent token is
the `invalid session` failure with the store untouched; a present but
expired session is evicted (a subsequent lookup of the same token is
not-found) and the call fails `session expired`; then failed cryptographic
verification is the `invalid token` failure; then a verified subject
differing from the stored subject is the `token mismatch` failure; and
with every check passing the stored session is returned. -/
theorem validateSession_spec (secret now : Nat) (db : List Session) (token : TokenStr) :
    (db.find? (fun s => s.token == token) = none →
        ValidateSession plainSessionStore secret now db token
          = (.error (.businessErr "invalid session"), db))
  ∧ (∀ sess, db.find? (fun s => s.token == token) = some sess →
      (sess.expiresAt < now →
          ValidateSession plainSessionStore secret now db token
            = (.error (.businessErr "session expired"),
               db.filter (fun s => !(s.token == token)))
        ∧ plainSessionStore.getByToken now
            (db.filter (fun s => !(s.token == token))) token
            = .error (.notFoundErr "session not found"))
      ∧ (¬ sess.expiresAt < now →
          (∀ e, ValidateToken secret now token = .error e →
              ValidateSession plainSessionStore secret now db token
                = (.error (.businessErr "invalid token"), db))
          ∧ (∀ uid, ValidateToken secret now token = .ok uid →
              (uid = sess.userID →
                  ValidateSession plainSessionStore secret now db token = (.ok sess, db))
              ∧ (uid ≠ sess.userID →
                  ValidateSession plainSessionStore secret now db token
                    = (.error (.businessErr "token mismatch"), db))))) := by
  constructor
  · intro hnone
    simp [ValidateSession, plainSessionStore, hnone]
  · intro sess hfind
    constructor
    · intro hexp
      constructor
      · have hmem := List.mem_of_find?_eq_some hfind
        have htok := List.find?_some hfind
        have hx : ∃ x ∈ db, x.token = token := ⟨sess, hmem, by simpa using htok⟩
        simp [ValidateSession, plainSessionStore, hfind, hexp, hx]
      · simp only [plainSessionStore]
        rw [find?_filter_not_self]
    · intro hexp
      constructor
      · intro e hval
        simp [ValidateSession, plainSessionStore, hfind, hexp, hval]
      · intro uid hval
        constructor
        · intro heq
          simp [ValidateSession, plainSessionStore, hfind, hexp, hval, heq]
        · intro hne
          simp [ValidateSession, plainSessionStore, hfind, hexp, hval, hne]

/-- C1 witness: a concrete expired session is evicted and reported
expired, the evicted token then looks up as not-found, and a concrete
fully valid session is returned; all read off `validateSession_spec`. -/
theorem validateSession_spec_witness :
    (ValidateSession plainSessionStore 3 1000
        [{ id := 1, userID := 7, token := .malformed "t1", expiresAt := 500, createdAt := 100 }]
        (.malformed "t1")
      = (.error (.businessErr "session expired"), [])
      ∧ plainSessionStore.getByToken 1000 [] (.malformed "t1")
        = .error (.notFoundErr "session not found"))
  ∧ ValidateSession plainSessionStore 3 1000
        [{ id := 1, userID := 7, token := GenerateToken 3 1000 7, expiresAt := 90000, createdAt := 1000 }]
        (GenerateToken 3 1000 7)
      = (.ok { id := 1, userID := 7, token := GenerateToken 3 1000 7, expiresAt := 90000, createdAt := 1000 }, [{ id := 1, userID := 7, token := GenerateToken 3 1000 7, expiresAt := 90000, createdAt := 1000 }]) := by
  constructor
  · have h := ((validateSession_spec 3 1000
        [{ id := 1, userID := 7, token := .malformed "t1", expiresAt := 500, createdAt := 100 }]
        (.malformed "t1")).2
        { id := 1, userID := 7, token := .malformed "t1", expiresAt := 500, createdAt := 100 }
        (by decide)).1 (by decide)
    exact ⟨h.1, h.2⟩
  · have h := (((validateSession_spec 3 1000
        [{ id := 1, userID := 7, token := GenerateToken 3 1000 7, expiresAt := 90000, createdAt := 1000 }]
        (GenerateToken 3 1000 7)).2
        { id := 1, userID := 7, token := GenerateToken 3 1000 7, expiresAt := 90000, createdAt := 1000 }
        (by simp)).2 (by decide)).2 7 (by rfl)
    exact h.1 rfl

/-- C4 counterexample: through the Postgres store, deleting a token with
no corresponding session does not return success at the session-manager
layer; it returns the repository's not-found error unchanged. -/
theorem deleteSession_not_idempotent_counterexample :
    DeleteSession pgSessionRepo [] (.malformed "ghost-token")
      = (.error (.notFoundErr "session not found"), []) := by
  rfl

/-- C4 amended: `DeleteSession` propagates the store outcome instead of
swallowing it — an absent token yields the store's not-found error with
the table unchanged, a present token yields success with the row removed —
and the best-effort swallowing happens one layer up, in the HTTP Logout
handler, which answers 200 whatever the deletion returned. -/
theorem deleteSession_amended (db : List Session) (token : TokenStr)
    (htok : token.isEmptyTok = false) :
    (db.find? (fun s => s.token == token) = none →
        DeleteSession pgSessionRepo db token
          = (.error (.notFoundErr "session not found"), db))
  ∧ (∀ sess, db.find? (fun s => s.token == token) = some sess →
        DeleteSession pgSessionRepo db token
          = (.ok (), db.filter (fun s => !(s.token == token))))
  ∧ (logoutHandler pgSessionRepo db token).1 = 200 := by
  refine ⟨?_, ?_, ?_⟩
  · intro hnone
    simp [DeleteSession, pgSessionRepo, pgSessionDeleteByToken, htok, hnone]
  · intro sess hfind
    have hmem := List.mem_of_find?_eq_some hfind
    have hp := List.find?_some hfind
    have hx : ∃ x ∈ db, x.token = token := ⟨sess, hmem, by simpa using hp⟩
    simp [DeleteSession, pgSessionRepo, pgSessionDeleteByToken, htok, hx]
  · simp [logoutHandler, htok]

/-- C4 witness: concrete instances of the amended behavior, read off
`deleteSession_amended`. -/
theorem deleteSession_amended_witness :
    (DeleteSession pgSessionRepo [] (.malformed "t9")
        = (.error (.notFoundErr "session not found"), []))
  ∧ (DeleteSession pgSessionRepo
        [{ id := 1, userID := 7, token := .malformed "t9", expiresAt := 500, createdAt := 100 }]
        (.malformed "t9")
        = (.ok (), []))
  ∧ (logoutHandler pgSessionRepo [] (.malformed "t9")).1 = 200 := by
  refine ⟨?_, ?_, ?_⟩
  · exact (deleteSession_amended [] (.malformed "t9") (by decide)).1 (by decide)
  · have h := (deleteSession_amended
        [{ id := 1, userID := 7, token := .malformed "t9", expiresAt := 500, createdAt := 100 }]
        (.malformed "t9") (by decide)).2.1
        { id := 1, userID := 7, token := .malformed "t9", expiresAt := 500, createdAt := 100 }
        (by decide)
    simpa using h
  · exact (deleteSession_amended [] (.malformed "t9") (by decide)).2.2

/-- C10: the Postgres session store never hands out an expired session —
both lookups report a stored-but-expired row as an error — and therefore
the session manager wired to this store can never take its own expiry
branch: no input produces the `session expired` classification, and a
stored-but-expired session is reported through the lookup-failure path as
`invalid session`. -/
theorem pgStore_never_returns_expired (now : Nat) (db : List Session) :
    (∀ token sess, pgSessionGetByToken now db token = .ok sess → ¬ sess.expiresAt < now)
  ∧ (∀ userID sess, pgSessionGetByUserID now db userID = .ok sess → ¬ sess.expiresAt < now)
  ∧ (∀ secret token,
        (ValidateSession pgSessionRepo secret now db token).1
          ≠ .error (.businessErr "session expired"))
  ∧ (∀ secret token sess, db.find? (fun s => s.token == token) = some sess →
        sess.expiresAt < now →
        ValidateSession pgSessionRepo secret now db token
          = (.error (.businessErr "invalid session"), db)) := by
  refine ⟨?_, ?_, ?_, ?_⟩
  · intro token sess h
    exact pgSessionGetByToken_ok_not_expired h
  · intro userID sess h
    exact pgSessionGetByUserID_ok_not_expired h
  · intro secret token
    unfold ValidateSession
    rcases hg : pgSessionRepo.getByToken now db token with e | sess
    · simp
    · have hok : ¬ sess.expiresAt < now := pgSessionGetByToken_ok_not_expired hg
      simp only [hg, hok, if_false]
      rcases hv : ValidateToken secret now token with e2 | uid
      · simp
      · by_cases hu : uid = sess.userID <;> simp [hu]
  · intro secret token sess hfind hexp
    unfold ValidateSession
    by_cases he : token.isEmptyTok
    · have : pgSessionRepo.getByToken now db token
        = .error (.validationErr "token is required") := by
        simp [pgSessionRepo, pgSessionGetByToken, he]
      simp [this]
    · have : pgSessionRepo.getByToken now db token
        = .error (.validationErr "session expired") := by
        simp [pgSessionRepo, pgSessionGetByToken, he, hfind, hexp]
      simp [this]

/-- C10 witness: concrete readings of `pgStore_never_returns_expired` — a
live session looked up by token and by user id is indeed not expired, and
a concrete stored-but-expired session makes the wired session manager
answer `invalid session` through the lookup-failure path. -/
theorem pgStore_never_returns_expired_witness :
    ¬ (90000 : Nat) < 1000
  ∧ ValidateSession pgSessionRepo 3 1000
      [{ id := 1, userID := 7, token := .malformed "t1", expiresAt := 500, createdAt := 100 }]
      (.malformed "t1")
      = (.error (.businessErr "invalid session"),
         [{ id := 1, userID := 7, token := .malformed "t1", expiresAt := 500, createdAt := 100 }]) := by
  constructor
  · exact (pgStore_never_returns_expired 1000
      [{ id := 1, userID := 7, token := .malformed "t1", expiresAt := 90000, createdAt := 100 }]).1
      (.malformed "t1")
      { id := 1, userID := 7, token := .malformed "t1", expiresAt := 90000, createdAt := 100 }
      (by rfl)
  · exact (pgStore_never_returns_expired 1000
      [{ id := 1, userID := 7, token := .malformed "t1", expiresAt := 500, createdAt := 100 }]).2.2.2
      3 (.malformed "t1")
      { id := 1, userID := 7, token := .malformed "t1", expiresAt := 500, createdAt := 100 }
      (by decide) (by decide)

/-- C5 (at the failing input): registering with the one-character secret
`x` and otherwise valid fields succeeds and persists the account, because
the entity validator runs after hashing and its minimum-length check sees
the 60-byte bcrypt hash, never the raw secret; the same validator applied
to the pre-hash record does reject that secret, which is the check the
specification describes. -/
theorem register_short_secret_accepted :
    (Register 42 1 1000 [] "bob" "bob@example.com" "x").1
      = .ok { id := 1, username := "bob", email := "bob@example.com",
              password := .plain "", createdAt := 1000, updatedAt := 1000 }
  ∧ (Register 42 1 1000 [] "bob" "bob@example.com" "x").2
      = [{ id := 1, username := "bob", email := "bob@example.com",
           password := .bcryptMCF 42 "x", createdAt := 1000, updatedAt := 1000 }]
  ∧ User.validate { id := 1, username := "bob", email := "bob@example.com",
                    password := .plain "x", createdAt := 1000, updatedAt := 1000 }
      = .error (.validationErr "password must be at least 6 characters") := by
  refine ⟨by rfl, by rfl, by rfl⟩

/-- C6: `DeleteUser` removes the account with all of its sessions and
messages as one transaction: a successful call leaves no user row,
session or message of that user (a fresh profile lookup is not-found),
and every failing call — whichever statement of the transaction failed —
leaves the whole database exactly as it was. -/
theorem deleteUser_cascade (fault : TxFault) (now : Nat) (db : ChatDB) (uid : Nat) :
    (∀ db2, DeleteUser fault now db uid = (.ok (), db2) →
        (∀ u ∈ db2.users, u.id ≠ uid)
      ∧ (∀ s ∈ db2.sessions, s.userID ≠ uid)
      ∧ (∀ m ∈ db2.messages, m.senderID ≠ uid)
      ∧ pgUserGetByID db2.users uid = .error (.notFoundErr "user not found"))
  ∧ (∀ e db2, DeleteUser fault now db uid = (.error e, db2) → db2 = db) := by
  constructor
  · intro db2 h
    unfold DeleteUser pgUserDelete at h
    by_cases h0 : uid = 0
    · rw [if_pos h0] at h
      simp at h
    rw [if_neg h0] at h
    by_cases h1 : fault = TxFault.failDeleteMessages
    · rw [if_pos h1] at h
      simp at h
    rw [if_neg h1] at h
    by_cases h2 : fault = TxFault.failDeleteSessions
    · rw [if_pos h2] at h
      simp at h
    rw [if_neg h2] at h
    by_cases h3 : fault = TxFault.failDeleteUserRow
    · rw [if_pos h3] at h
      simp at h
    rw [if_neg h3] at h
    by_cases h4 : (db.users.find? (fun u => u.id == uid)).isNone = true
    · rw [if_pos h4] at h
      simp at h
    rw [if_neg h4] at h
    by_cases h5 : fault = TxFault.failCommit
    · rw [if_pos h5] at h
      simp at h
    rw [if_neg h5] at h
    rw [Prod.mk.injEq] at h
    obtain ⟨-, hdb⟩ := h
    subst hdb
    refine ⟨?_, ?_, ?_, ?_⟩
    · intro u hu
      have := (List.mem_filter.mp hu).2
      simpa using this
    · intro s hs
      have := (List.mem_filter.mp hs).2
      simpa using this
    · intro m hm
      have := (List.mem_filter.mp hm).2
      simpa using this
    · unfold pgUserGetByID
      rw [if_neg h0, find?_filter_not_self]
  · intro e db2 h
    unfold DeleteUser pgUserDelete at h
    by_cases h0 : uid = 0
    · rw [if_pos h0, Prod.mk.injEq] at h
      exact h.2.symm
    rw [if_neg h0] at h
    by_cases h1 : fault = TxFault.failDeleteMessages
    · rw [if_pos h1, Prod.mk.injEq] at h
      exact h.2.symm
    rw [if_neg h1] at h
    by_cases h2 : fault = TxFault.failDeleteSessions
    · rw [if_pos h2, Prod.mk.injEq] at h
      exact h.2.symm
    rw [if_neg h2] at h
    by_cases h3 : fault = TxFault.failDeleteUserRow
    · rw [if_pos h3, Prod.mk.injEq] at h
      exact h.2.symm
    rw [if_neg h3] at h
    by_cases h4 : (db.users.find? (fun u => u.id == uid)).isNone = true
    · rw [if_pos h4, Prod.mk.injEq] at h
      exact h.2.symm
    rw [if_neg h4] at h
    by_cases h5 : fault = TxFault.failCommit
    · rw [if_pos h5, Prod.mk.injEq] at h
      exact h.2.symm
    rw [if_neg h5] at h
    simp at h

/-- C6 witness: deleting a concrete user removes their session and message
and makes the profile lookup not-found, while a commit failure on the same
database leaves it untouched; both read off `deleteUser_cascade`. -/
theorem deleteUser_cascade_witness :
    pgUserGetByID ([] : List User) 7 = .error (.notFoundErr "user not found")
  ∧ ({ users := [{ id := 7, username := "bob", email := "b@x.com",
                   password := .bcryptMCF 1 "secret123", createdAt := 0, updatedAt := 0 }],
       sessions := [{ id := 1, userID := 7, token := .malformed "t", expiresAt := 900, createdAt := 0 }],
       messages := [{ id := 1, content := "hi", senderID := 7, sentAt := 0 }] } : ChatDB)
      = { users := [{ id := 7, username := "bob", email := "b@x.com",
                      password := .bcryptMCF 1 "secret123", createdAt := 0, updatedAt := 0 }],
          sessions := [{ id := 1, userID := 7, token := .malformed "t", expiresAt := 900, createdAt := 0 }],
          messages := [{ id := 1, content := "hi", senderID := 7, sentAt := 0 }] } := by
  constructor
  · have hok := (deleteUser_cascade TxFault.noFault 1000
        { users := [{ id := 7, username := "bob", email := "b@x.com",
                      password := .bcryptMCF 1 "secret123", createdAt := 0, updatedAt := 0 }],
          sessions := [{ id := 1, userID := 7, token := .malformed "t", expiresAt := 900, createdAt := 0 }],
          messages := [{ id := 1, content := "hi", senderID := 7, sentAt := 0 }] } 7).1
        { users := [], sessions := [], messages := [] } (by rfl)
    exact hok.2.2.2
  · exact (deleteUser_cascade TxFault.failCommit 1000
        { users := [{ id := 7, username := "bob", email := "b@x.com",
                      password := .bcryptMCF 1 "secret123", createdAt := 0, updatedAt := 0 }],
          sessions := [{ id := 1, userID := 7, token := .malformed "t", expiresAt := 900, createdAt := 0 }],
          messages := [{ id := 1, content := "hi", senderID := 7, sentAt := 0 }] } 7).2
        (.dbErr "failed to commit transaction")
        { users := [{ id := 7, username := "bob", email := "b@x.com",
                      password := .bcryptMCF 1 "secret123", createdAt := 0, updatedAt := 0 }],
          sessions := [{ id := 1, userID := 7, token := .malformed "t", expiresAt := 900, createdAt := 0 }],
          messages := [{ id := 1, content := "hi", senderID := 7, sentAt := 0 }] } (by rfl)

/-- C7: login answers the identical `invalid credentials` business error —
the same Go error value, hence the same outward shape and classification —
whether the email has no account or the account exists and the secret does
not verify against the stored hash. -/
theorem login_indistinguishable (db : List User) (email pw pw2 : String) :
    (∀ e, pgUserGetByEmail db email = .error e →
        Login db email pw = .error (.businessErr "invalid credentials"))
  ∧ (∀ u, pgUserGetByEmail db email = .ok u → CheckPasswordHash pw2 u.password = false →
        Login db email pw2 = .error (.businessErr "invalid credentials")) := by
  constructor
  · intro e h
    simp [Login, h]
  · intro u h hc
    simp [Login, h, hc]

/-- C7 witness: with one stored account, a login under an unknown email
and a login under the right email but wrong secret produce the identical
error value, both read off `login_indistinguishable`. -/
theorem login_indistinguishable_witness :
    Login [{ id := 7, username := "alice", email := "alice@x.com",
             password := HashPassword 5 "secret123", createdAt := 0, updatedAt := 0 }]
        "bob@x.com" "secret123"
      = .error (.businessErr "invalid credentials")
  ∧ Login [{ id := 7, username := "alice", email := "alice@x.com",
             password := HashPassword 5 "secret123", createdAt := 0, updatedAt := 0 }]
        "alice@x.com" "wrong"
      = .error (.businessErr "invalid credentials") := by
  constructor
  · exact (login_indistinguishable
      [{ id := 7, username := "alice", email := "alice@x.com",
         password := HashPassword 5 "secret123", createdAt := 0, updatedAt := 0 }]
      "bob@x.com" "secret123" "wrong").1 (.notFoundErr "user not found") (by rfl)
  · exact (login_indistinguishable
      [{ id := 7, username := "alice", email := "alice@x.com",
         password := HashPassword 5 "secret123", createdAt := 0, updatedAt := 0 }]
      "alice@x.com" "secret123" "wrong").2
      { id := 7, username := "alice", email := "alice@x.com",
        password := HashPassword 5 "secret123", createdAt := 0, updatedAt := 0 }
      (by rfl) (by rfl)

/-- C8: every identity a usecase returns successfully — from registration,
login or the profile lookup — carries the empty string in its password
field; the stored credential hash is never echoed back. -/
theorem returned_identity_password_cleared :
    (∀ salt freshID now db username email password u db2,
        Register salt freshID now db username email password = (.ok u, db2) →
        u.password = .plain "")
  ∧ (∀ db email password u, Login db email password = .ok u → u.password = .plain "")
  ∧ (∀ db userID u, GetProfile db userID = .ok u → u.password = .plain "") := by
  refine ⟨?_, ?_, ?_⟩
  · intro salt freshID now db username email password u db2 h
    unfold Register at h
    set u0 : User :=
      { id := freshID, username := username, email := email,
        password := HashPassword salt password, createdAt := now, updatedAt := now } with hu0
    rcases hg : pgUserGetByEmail db email with e | v <;> simp only [hg] at h
    · rcases hv : u0.validate with e2 | u2 <;> simp only [hv] at h
      · simp at h
      · rcases hc : pgUserCreate db u0 with e3 | db3 <;> simp only [hc] at h
        · simp at h
        · rw [Prod.mk.injEq] at h
          obtain ⟨hu, -⟩ := h
          rw [Except.ok.injEq] at hu
          rw [← hu]
    · simp at h
  · intro db email password u h
    unfold Login at h
    rcases hg : pgUserGetByEmail db email with e | v <;> simp only [hg] at h
    · simp at h
    · by_cases hc : CheckPasswordHash password v.password <;> simp only [hc, if_true, if_false] at h
      · rw [Except.ok.injEq] at h
        rw [← h]
      · simp at h
  · intro db userID u h
    unfold GetProfile at h
    rcases hg : pgUserGetByID db userID with e | v <;> simp only [hg] at h
    · simp at h
    · rw [Except.ok.injEq] at h
      rw [← h]

/-- C8 witness: a concrete registration, login and profile lookup each
return a user whose password field is the empty string, read off
`returned_identity_password_cleared`. -/
theorem returned_identity_password_cleared_witness :
    ({ id := 1, username := "alice", email := "alice@x.com",
       password := .plain "", createdAt := 1000, updatedAt := 1000 } : User).password
      = .plain ""
  ∧ ({ id := 7, username := "alice", email := "alice@x.com",
       password := .plain "", createdAt := 0, updatedAt := 0 } : User).password
      = .plain "" := by
  constructor
  · exact returned_identity_password_cleared.1 5 1 1000 [] "alice" "alice@x.com" "secret123"
      { id := 1, username := "alice", email := "alice@x.com",
        password := .plain "", createdAt := 1000, updatedAt := 1000 }
      [{ id := 1, username := "alice", email := "alice@x.com",
         password := .bcryptMCF 5 "secret123", createdAt := 1000, updatedAt := 1000 }]
      (by rfl)
  · exact returned_identity_password_cleared.2.2
      [{ id := 7, username := "alice", email := "alice@x.com",
         password := HashPassword 5 "secret123", createdAt := 0, updatedAt := 0 }] 7
      { id := 7, username := "alice", email := "alice@x.com",
        password := .plain "", createdAt := 0, updatedAt := 0 }
      (by rfl)
